import Mathlib

/-!
Verification of the TISS guide-extraction and reconciliation core.

The development shallowly embeds two source modules:

* `TissParser` — the document-level parser (`tiss_parser.py`): per-guide
  total-resolution strategy chain for SP-SADT guides, the document-level
  strategy label, and the batch driver `parse_many_xmls`.
* `AppParse` — the item-level guide extractor of `app.py`
  (`_itens_sadt`, `_itens_consulta`, `parse_itens_tiss_xml`).
* `Conc` — the reconciliation engine `conciliar_itens` of `app.py`.

Decimal amounts are modelled as `ℚ`.  XML text extraction (`tx`, `_dec`)
returns the parsed value; `Option` marks tags whose absence the source
distinguishes from an explicit zero, plain fields model lookups whose
absence the source collapses to `''`/`0`.
-/

/-- Executable model of Python `str.strip`: drop leading and trailing
whitespace characters. -/
def stripStr (s : String) : String :=
  ⟨((s.data.dropWhile Char.isWhitespace).reverse.dropWhile Char.isWhitespace).reverse⟩

/-- Executable model of Python `str.upper` on ASCII text. -/
def upperStr (s : String) : String :=
  ⟨s.data.map Char.toUpper⟩

namespace TissParser

/-- An `ans:procedimentoExecutado` item as read by `_sum_itens_procedimentos`:
`none` models a tag that is absent or has blank text. -/
structure ProcedimentoExecutado where
  valorTotal : Option ℚ
  valorUnitario : Option ℚ
  quantidadeExecutada : Option ℚ
deriving DecidableEq

/-- The `ans:servicosExecutados` block of one `ans:despesa`. -/
structure ServicosExecutados where
  valorTotal : Option ℚ
deriving DecidableEq

/-- An `ans:despesa` element under `ans:outrasDespesas`. -/
structure Despesa where
  servicosExecutados : Option ServicosExecutados
deriving DecidableEq

/-- The per-guide `ans:valorTotal` block with its declared grand total and
component sub-totals. -/
structure ValorTotalBloco where
  valorTotalGeral : Option ℚ
  valorProcedimentos : Option ℚ
  valorDiarias : Option ℚ
  valorTaxasAlugueis : Option ℚ
  valorMateriais : Option ℚ
  valorMedicamentos : Option ℚ
  valorGasesMedicinais : Option ℚ
deriving DecidableEq

/-- One `ans:guiaSP-SADT` guide, restricted to the parts the totaliser reads. -/
structure GuiaSADT where
  valorTotal : Option ValorTotalBloco
  procedimentosExecutados : List ProcedimentoExecutado
  outrasDespesas : List Despesa
deriving DecidableEq

/-- `_dec` applied to an optional tag: absent text parses as `0`. -/
def dec0 (v : Option ℚ) : ℚ := v.getD 0

/-- `_sum_itens_procedimentos`: each executed procedure contributes its
`valorTotal` when that tag carries text, otherwise `valorUnitario *
quantidadeExecutada` when both are present, otherwise nothing. -/
def sum_itens_procedimentos (guia : GuiaSADT) : ℚ :=
  guia.procedimentosExecutados.foldl
    (fun total it =>
      match it.valorTotal with
      | some v => total + v
      | none =>
        match it.valorUnitario, it.quantidadeExecutada with
        | some vuni, some qtd => total + vuni * qtd
        | _, _ => total)
    0

/-- `_sum_itens_outras_desp`: each expense with a `servicosExecutados` block
contributes that block's `valorTotal` (`0` when the tag is absent). -/
def sum_itens_outras_desp (guia : GuiaSADT) : ℚ :=
  guia.outrasDespesas.foldl
    (fun total desp =>
      match desp.servicosExecutados with
      | none => total
      | some sv => total + dec0 sv.valorTotal)
    0

/-- `_sum_componentes_valorTotal`: sum of the six declared component
sub-totals of the guide's `valorTotal` block. -/
def sum_componentes_valorTotal (guia : GuiaSADT) : ℚ :=
  match guia.valorTotal with
  | none => 0
  | some vt =>
      dec0 vt.valorProcedimentos + dec0 vt.valorDiarias + dec0 vt.valorTaxasAlugueis +
        dec0 vt.valorMateriais + dec0 vt.valorMedicamentos + dec0 vt.valorGasesMedicinais

/-- The `valorTotalGeral` value read from the guide's `valorTotal` block
(`0` when block or tag is absent), as computed at the top of
`_sum_sadt_guia`. -/
def valorTotalGeralDaGuia (guia : GuiaSADT) : ℚ :=
  match guia.valorTotal with
  | some vt => dec0 vt.valorTotalGeral
  | none => 0

/-- `_sum_sadt_guia`: the per-guide total-resolution chain. -/
def sum_sadt_guia (guia : GuiaSADT) : ℚ × String :=
  let vtg_val := valorTotalGeralDaGuia guia
  if 0 < vtg_val then (vtg_val, "valorTotalGeral")
  else
    let itens_total := sum_itens_procedimentos guia + sum_itens_outras_desp guia
    if 0 < itens_total then (itens_total, "itens (proced+outras)")
    else
      let comp_total := sum_componentes_valorTotal guia
      if 0 < comp_total then (comp_total, "componentes_valorTotal")
      else (0, "zero")

/-- The per-file strategy frequency map of `_sum_sadt`, in first-occurrence
order as a Python `dict` iterates. -/
def contaEstrategias : List String → List (String × ℕ)
  | [] => []
  | s :: resto =>
      (s, 1 + resto.count s) :: contaEstrategias (resto.filter (fun t => t != s))
termination_by l => l.length
decreasing_by simpa using Nat.lt_succ_of_le (List.length_filter_le _ _)

/-- The sort key of `_sum_sadt`'s mixed-strategy label: descending count,
then ascending strategy name. -/
def stratKeyLE (a b : String × ℕ) : Prop :=
  b.2 < a.2 ∨ (a.2 = b.2 ∧ a.1 ≤ b.1)

instance : DecidableRel stratKeyLE := fun a b => by
  unfold stratKeyLE; infer_instance

instance : IsTotal (String × ℕ) stratKeyLE := by
  constructor
  intro a b
  rcases lt_trichotomy a.2 b.2 with h | h | h
  · exact Or.inr (Or.inl h)
  · rcases le_total a.1 b.1 with h2 | h2
    · exact Or.inl (Or.inr ⟨h, h2⟩)
    · exact Or.inr (Or.inr ⟨h.symm, h2⟩)
  · exact Or.inl (Or.inl h)

instance : IsTrans (String × ℕ) stratKeyLE := by
  constructor
  rintro a b c (h1 | ⟨e1, l1⟩) (h2 | ⟨e2, l2⟩)
  · exact Or.inl (h2.trans h1)
  · exact Or.inl (e2 ▸ h1)
  · exact Or.inl (e1 ▸ h2)
  · exact Or.inr ⟨e1.trans e2, l1.trans l2⟩

/-- `_sum_sadt`: guide count, total and the document-level strategy label.
A single strategy is reported by name; several strategies produce the
`"misto: "` label sorted by descending frequency then name. -/
def sum_sadt (guias : List GuiaSADT) : ℕ × ℚ × String :=
  let resultados := guias.map sum_sadt_guia
  let total := resultados.foldl (fun acc r => acc + r.1) 0
  let estrategias := contaEstrategias (resultados.map Prod.snd)
  if guias.isEmpty then (0, 0, "zero")
  else if estrategias.length = 1 then
    (guias.length, total, ((estrategias.head?).map Prod.fst).getD "")
  else
    (guias.length, total,
      "misto: " ++ String.intercalate ", "
        ((List.insertionSort stratKeyLE estrategias).map
          (fun p => p.1 ++ "=" ++ toString p.2)))

/-- One `ans:guiaConsulta` guide as read by `_sum_consulta`. -/
structure GuiaConsulta where
  valorProcedimento : Option ℚ
deriving DecidableEq

/-- `_sum_consulta`: count of consultation guides and the sum of their
`valorProcedimento` values. -/
def sum_consulta (guias : List GuiaConsulta) : ℕ × ℚ × String :=
  (guias.length,
   guias.foldl (fun total g => total + dec0 g.valorProcedimento) 0,
   "consulta_valorProcedimento")

/-- A parsed TISS transaction document, restricted to what `_parse_root`
reads.  String fields hold the stripped tag text, `""` when absent. -/
structure TissDoc where
  loteGuiasNumeroLote : String
  recursoNumeroLote : String
  tipoTransacao : String
  temGuiaRecursoGlosa : Bool
  guiasConsulta : List GuiaConsulta
  guiasSADT : List GuiaSADT
  recursoGuias : ℕ
  valorTotalRecursado : ℚ
  numeroProtocolo : String
deriving DecidableEq

/-- `_is_recurso`: transaction type equals `RECURSO_GLOSA` (after strip and
upper-case) or an appeal-guide substructure is present. -/
def is_recurso (doc : TissDoc) : Bool :=
  upperStr (stripStr doc.tipoTransacao) == "RECURSO_GLOSA" || doc.temGuiaRecursoGlosa

/-- `_is_consulta`: at least one consultation guide. -/
def is_consulta (doc : TissDoc) : Bool := !doc.guiasConsulta.isEmpty

/-- `_is_sadt`: at least one SP-SADT guide. -/
def is_sadt (doc : TissDoc) : Bool := !doc.guiasSADT.isEmpty

/-- `_get_numero_lote`: lot number from the guide batch, else from the
appeal structure, else a `TissParsingError`. -/
def get_numero_lote (doc : TissDoc) : Except String String :=
  if doc.loteGuiasNumeroLote ≠ "" then .ok doc.loteGuiasNumeroLote
  else if doc.recursoNumeroLote ≠ "" then .ok doc.recursoNumeroLote
  else .error "numeroLote não encontrado no XML."

/-- The parser version constant. -/
def parser_version : String := "2026.01.15-ptbr-05"

/-- The result dictionary of `parse_tiss_xml`; absent dictionary keys are
`none`. -/
structure ParseRecord where
  arquivo : String
  numero_lote : String
  tipo : String
  qtde_guias : ℕ
  valor_total : ℚ
  estrategia_total : String
  protocolo : Option String
  erro : Option String
  parserVersion : String
deriving DecidableEq

/-- `_sum_recurso`: appealed-guide count, appealed total, fixed strategy
name and the protocol number. -/
def sum_recurso (doc : TissDoc) : ℕ × ℚ × String × String :=
  (doc.recursoGuias, doc.valorTotalRecursado, "recurso_valorTotalRecursado",
   doc.numeroProtocolo)

/-- `_parse_root`: classify the document and build its result record. -/
def parse_root (doc : TissDoc) (arquivo_nome : String) : Except String ParseRecord := do
  let numero_lote ← get_numero_lote doc
  if is_recurso doc then
    let r := sum_recurso doc
    return { arquivo := arquivo_nome, numero_lote := numero_lote, tipo := "RECURSO",
             qtde_guias := r.1, valor_total := r.2.1, estrategia_total := r.2.2.1,
             protocolo := if r.2.2.2 ≠ "" then some r.2.2.2 else none,
             erro := none, parserVersion := parser_version }
  else if is_consulta doc then
    let r := sum_consulta doc.guiasConsulta
    return { arquivo := arquivo_nome, numero_lote := numero_lote, tipo := "CONSULTA",
             qtde_guias := r.1, valor_total := r.2.1, estrategia_total := r.2.2,
             protocolo := none, erro := none, parserVersion := parser_version }
  else if is_sadt doc then
    let r := sum_sadt doc.guiasSADT
    return { arquivo := arquivo_nome, numero_lote := numero_lote, tipo := "SADT",
             qtde_guias := r.1, valor_total := r.2.1, estrategia_total := r.2.2,
             protocolo := none, erro := none, parserVersion := parser_version }
  else
    return { arquivo := arquivo_nome, numero_lote := numero_lote, tipo := "DESCONHECIDO",
             qtde_guias := 0, valor_total := 0, estrategia_total := "zero",
             protocolo := none, erro := none, parserVersion := parser_version }

/-- One input of the batch driver: a file name together with the parsed
document, or the parse error raised while reading it. -/
structure XmlSource where
  name : String
  conteudo : Except String TissDoc

/-- `parse_tiss_xml`: load the document and delegate to `_parse_root`;
any exception propagates. -/
def parse_tiss_xml (source : XmlSource) : Except String ParseRecord := do
  let doc ← source.conteudo
  parse_root doc source.name

/-- `parse_many_xmls`: parse every path, converting a per-document
exception into an error record with zero guides and zero total. -/
def parse_many_xmls (sources : List XmlSource) : List ParseRecord :=
  sources.map (fun s =>
    match parse_tiss_xml s with
    | .ok r => r
    | .error e =>
        { arquivo := s.name, numero_lote := "", tipo := "DESCONHECIDO",
          qtde_guias := 0, valor_total := 0, estrategia_total := "erro",
          protocolo := none, erro := some e, parserVersion := parser_version })

end TissParser

namespace AppParse

/-- An `ans:procedimentoExecutado` item as flattened by `_itens_sadt` in
`app.py`: every field is read through `dec(tx(...))` / `tx(...)`, which
collapse an absent tag to `0` / `""`. -/
structure ProcedimentoExecutadoNode where
  codigoTabela : String
  codigoProcedimento : String
  descricaoProcedimento : String
  quantidadeExecutada : ℚ
  valorUnitario : ℚ
  valorTotal : ℚ
deriving DecidableEq

/-- The `ans:servicosExecutados` block of one expense, as read by
`_itens_sadt`. -/
structure ServicosExecutadosNode where
  codigoTabela : String
  codigoProcedimento : String
  descricaoProcedimento : String
  quantidadeExecutada : ℚ
  valorUnitario : ℚ
  valorTotal : ℚ
deriving DecidableEq

/-- An `ans:despesa` element: the expense identifier plus the optional
`servicosExecutados` block. -/
structure DespesaNode where
  identificadorDespesa : String
  servicosExecutados : Option ServicosExecutadosNode
deriving DecidableEq

/-- One emitted line-item dictionary of `_itens_sadt` / `_itens_consulta`. -/
structure ItemGuia where
  tipo_item : String
  identificadorDespesa : String
  codigo_tabela : String
  codigo_procedimento : String
  descricao_procedimento : String
  quantidade : ℚ
  valor_unitario : ℚ
  valor_total : ℚ
deriving DecidableEq

/-- The item `_itens_sadt` emits for one executed procedure, including the
`valorUnitario * quantidadeExecutada` reconstruction of a zero total. -/
def itemDeProcedimento (it : ProcedimentoExecutadoNode) : ItemGuia :=
  let vtot :=
    if it.valorTotal = 0 ∧ 0 < it.valorUnitario ∧ 0 < it.quantidadeExecutada
    then it.valorUnitario * it.quantidadeExecutada else it.valorTotal
  { tipo_item := "procedimento", identificadorDespesa := "",
    codigo_tabela := it.codigoTabela,
    codigo_procedimento := it.codigoProcedimento,
    descricao_procedimento := it.descricaoProcedimento,
    quantidade := if 0 < it.quantidadeExecutada then it.quantidadeExecutada else 1,
    valor_unitario := if 0 < it.valorUnitario then it.valorUnitario else vtot,
    valor_total := vtot }

/-- The item `_itens_sadt` emits for one other-expense element, with the
same zero-total reconstruction; all service fields default when the
`servicosExecutados` block is absent. -/
def itemDeDespesa (desp : DespesaNode) : ItemGuia :=
  let codigo_tabela := match desp.servicosExecutados with
    | some sv => sv.codigoTabela
    | none => ""
  let codigo_proc := match desp.servicosExecutados with
    | some sv => sv.codigoProcedimento
    | none => ""
  let descricao := match desp.servicosExecutados with
    | some sv => sv.descricaoProcedimento
    | none => ""
  let qtd : ℚ := match desp.servicosExecutados with
    | some sv => sv.quantidadeExecutada
    | none => 0
  let vuni : ℚ := match desp.servicosExecutados with
    | some sv => sv.valorUnitario
    | none => 0
  let vtot0 : ℚ := match desp.servicosExecutados with
    | some sv => sv.valorTotal
    | none => 0
  let vtot := if vtot0 = 0 ∧ 0 < vuni ∧ 0 < qtd then vuni * qtd else vtot0
  { tipo_item := "outra_despesa", identificadorDespesa := desp.identificadorDespesa,
    codigo_tabela := codigo_tabela,
    codigo_procedimento := codigo_proc,
    descricao_procedimento := descricao,
    quantidade := if 0 < qtd then qtd else 1,
    valor_unitario := if 0 < vuni then vuni else vtot,
    valor_total := vtot }

/-- The `ans:cabecalhoGuia` sub-node of a SADT guide. -/
structure CabecalhoGuia where
  numeroGuiaPrestador : String
  numeroGuiaOperadora : String
deriving DecidableEq

/-- The `ans:dadosAutorizacao` sub-node of a SADT guide. -/
structure DadosAutorizacao where
  numeroGuiaOperadora : String
deriving DecidableEq

/-- One `ans:guiaSP-SADT` element as read by `parse_itens_tiss_xml`. -/
structure GuiaSadtXml where
  numeroGuiaPrestador : String
  cabecalhoGuia : Option CabecalhoGuia
  dadosAutorizacao : Option DadosAutorizacao
  nomeBeneficiario : String
  nomeProfissional : String
  dataAtendimento : String
  procedimentosExecutados : List ProcedimentoExecutadoNode
  outrasDespesas : List DespesaNode
deriving DecidableEq

/-- `_itens_sadt`: items for the executed procedures followed by items for
the other expenses. -/
def itens_sadt (guia : GuiaSadtXml) : List ItemGuia :=
  guia.procedimentosExecutados.map itemDeProcedimento ++
    guia.outrasDespesas.map itemDeDespesa

/-- The provider-guide number of a SADT guide: the guide root first, then
the guide header. -/
def numeroGuiaPrestSadt (guia : GuiaSadtXml) : String :=
  if guia.numeroGuiaPrestador ≠ "" then guia.numeroGuiaPrestador
  else
    match guia.cabecalhoGuia with
    | some cab => cab.numeroGuiaPrestador
    | none => ""

/-- The payer-guide number of a SADT guide: the authorization sub-node
first, then the guide header, and finally the provider-guide number. -/
def numeroGuiaOperSadt (guia : GuiaSadtXml) : String :=
  let oper0 := match guia.dadosAutorizacao with
    | some aut => aut.numeroGuiaOperadora
    | none => ""
  let oper1 :=
    if oper0 = "" then
      match guia.cabecalhoGuia with
      | some cab => cab.numeroGuiaOperadora
      | none => ""
    else oper0
  if oper1 = "" then numeroGuiaPrestSadt guia else oper1

/-- One emitted item enriched with the guide-level fields that
`parse_itens_tiss_xml` adds via `it.update(...)`. -/
structure ItemCompleto extends ItemGuia where
  arquivo : String
  numero_lote : String
  tipo_guia : String
  numeroGuiaPrestador : String
  numeroGuiaOperadora : String
  paciente : String
  medico : String
  data_atendimento : String
deriving DecidableEq

/-- The items `parse_itens_tiss_xml` emits for one SADT guide. -/
def itensDaGuiaSadt (arquivo numero_lote : String) (guia : GuiaSadtXml) :
    List ItemCompleto :=
  (itens_sadt guia).map (fun it =>
    { toItemGuia := it, arquivo := arquivo, numero_lote := numero_lote,
      tipo_guia := "SADT",
      numeroGuiaPrestador := numeroGuiaPrestSadt guia,
      numeroGuiaOperadora := numeroGuiaOperSadt guia,
      paciente := guia.nomeBeneficiario, medico := guia.nomeProfissional,
      data_atendimento := guia.dataAtendimento })

/-- The `ans:procedimento` sub-node of a consultation guide. -/
structure ProcedimentoConsulta where
  codigoTabela : String
  codigoProcedimento : String
  descricaoProcedimento : String
  valorProcedimento : ℚ
deriving DecidableEq

/-- One `ans:guiaConsulta` element as read by `parse_itens_tiss_xml`. -/
structure GuiaConsultaXml where
  numeroGuiaPrestador : String
  numeroGuiaOperadora : String
  procedimento : Option ProcedimentoConsulta
  nomeBeneficiario : String
  nomeProfissional : String
  dataAtendimento : String
deriving DecidableEq

/-- `_itens_consulta`: one procedure item with quantity `1`. -/
def itens_consulta (guia : GuiaConsultaXml) : List ItemGuia :=
  let codigo_tabela := match guia.procedimento with
    | some p => p.codigoTabela
    | none => ""
  let codigo_proc := match guia.procedimento with
    | some p => p.codigoProcedimento
    | none => ""
  let descricao := match guia.procedimento with
    | some p => p.descricaoProcedimento
    | none => ""
  let valor : ℚ := match guia.procedimento with
    | some p => p.valorProcedimento
    | none => 0
  [{ tipo_item := "procedimento", identificadorDespesa := "",
     codigo_tabela := codigo_tabela, codigo_procedimento := codigo_proc,
     descricao_procedimento := descricao, quantidade := 1,
     valor_unitario := valor, valor_total := valor }]

/-- The payer-guide number of a consultation guide: the guide root, else
the provider-guide number. -/
def numeroGuiaOperConsulta (guia : GuiaConsultaXml) : String :=
  if guia.numeroGuiaOperadora = "" then guia.numeroGuiaPrestador
  else guia.numeroGuiaOperadora

/-- The items `parse_itens_tiss_xml` emits for one consultation guide. -/
def itensDaGuiaConsulta (arquivo numero_lote : String) (guia : GuiaConsultaXml) :
    List ItemCompleto :=
  (itens_consulta guia).map (fun it =>
    { toItemGuia := it, arquivo := arquivo, numero_lote := numero_lote,
      tipo_guia := "CONSULTA",
      numeroGuiaPrestador := guia.numeroGuiaPrestador,
      numeroGuiaOperadora := numeroGuiaOperConsulta guia,
      paciente := guia.nomeBeneficiario, medico := guia.nomeProfissional,
      data_atendimento := guia.dataAtendimento })

end AppParse

namespace Conc

/-- One row of the extracted-items frame `df_xml` as consumed by
`conciliar_itens` (keys already built by `build_xml_df`). -/
structure ItemXml where
  arquivo : String
  numeroGuiaPrestador : String
  numeroGuiaOperadora : String
  codigo_procedimento : String
  descricao_procedimento : String
  valor_total : ℚ
  chave_prest : String
  chave_oper : String
deriving DecidableEq

/-- One row of the normalized payment-statement frame `df_demo`.
`valor_apresentado` is optional: a missing cell is `NaN` in the frame and
`none` here. -/
structure DemoRow where
  numeroGuiaPrestador : String
  codigo_procedimento : String
  descricao_procedimento : String
  valor_apresentado : Option ℚ
  valor_glosa : ℚ
  valor_pago : ℚ
  chave_demo : String
deriving DecidableEq

/-- One merged row: the item columns, the joined statement columns when a
join partner exists, and the `matched_on` marker. -/
structure MRow where
  item : ItemXml
  demo : Option DemoRow
  matched_on : String
deriving DecidableEq

/-- A merged row extended with the post-match computed columns. -/
structure MRowCalc extends MRow where
  apresentado_diff : Option ℚ
  glosa_pct : ℚ
deriving DecidableEq

/-- `valor_apresentado.notna()` on a merged row: a join partner exists and
its claimed amount is present. -/
def valorPresente (demo : Option DemoRow) : Bool :=
  match demo with
  | some d => d.valor_apresentado.isSome
  | none => false

/-- A pandas left merge of items against statement rows on
`chave key = chave_demo`: an item without partners yields one row with
empty statement columns; otherwise one row per partner, in order. -/
def mergeEsquerda (chave : ItemXml → String) (itens : List ItemXml)
    (demo : List DemoRow) : List (ItemXml × Option DemoRow) :=
  itens.flatMap (fun it =>
    let parceiros := demo.filter (fun d => d.chave_demo == chave it)
    if parceiros.isEmpty then [(it, none)]
    else parceiros.map (fun d => (it, some d)))

/-- Build one tier row and its `matched_on` marker from a merged pair. -/
def linhaTier (tag : String) (p : ItemXml × Option DemoRow) : MRow :=
  { item := p.1, demo := p.2, matched_on := if valorPresente p.2 then tag else "" }

/-- One key-join tier of `conciliar_itens`: merge, then mark each row
matched exactly when the joined `valor_apresentado` is present. -/
def tierJoin (tag : String) (chave : ItemXml → String) (itens : List ItemXml)
    (demo : List DemoRow) : List MRow :=
  (mergeEsquerda chave itens demo).map (linhaTier tag)

/-- Tier 1: join on the provider key `chave_prest`. -/
def tier1 (itens : List ItemXml) (demo : List DemoRow) : List MRow :=
  tierJoin "prestador" (fun it => it.chave_prest) itens demo

/-- The item columns of tier 1's unmatched remainder (`restante[cols_xml]`),
duplicates preserved. -/
def restante1 (itens : List ItemXml) (demo : List DemoRow) : List ItemXml :=
  ((tier1 itens demo).filter (fun r => r.matched_on == "")).map (fun r => r.item)

/-- Tier 2: re-join tier 1's remainder on the payer key `chave_oper`. -/
def tier2 (itens : List ItemXml) (demo : List DemoRow) : List MRow :=
  tierJoin "operadora" (fun it => it.chave_oper) (restante1 itens demo) demo

/-- Tier 2's unmatched remainder (`m2[m2["matched_on"] == ""]`). -/
def tier2Restante (itens : List ItemXml) (demo : List DemoRow) : List MRow :=
  (tier2 itens demo).filter (fun r => r.matched_on == "")

/-- The fallback join key `guia_join` of an item: the stripped provider
guide number when non-empty, else the stripped payer guide number. -/
def guiaJoinXml (it : ItemXml) : String :=
  if stripStr it.numeroGuiaPrestador ≠ "" then stripStr it.numeroGuiaPrestador
  else stripStr it.numeroGuiaOperadora

/-- The tier-3 left merge on `(guia_join, descricao_procedimento)`. -/
def mergeFallback (itens : List ItemXml) (demo : List DemoRow) :
    List (ItemXml × Option DemoRow) :=
  itens.flatMap (fun it =>
    let parceiros := demo.filter (fun d =>
      stripStr d.numeroGuiaPrestador == guiaJoinXml it &&
        d.descricao_procedimento == it.descricao_procedimento)
    if parceiros.isEmpty then [(it, none)]
    else parceiros.map (fun d => (it, some d)))

/-- The tier-3 `keep` mask: the joined claimed amount is present and the
absolute difference to the item total is within the tolerance. -/
def fallbackKeep (tol : ℚ) (p : ItemXml × Option DemoRow) : Bool :=
  match p.2 with
  | some d =>
    match d.valor_apresentado with
    | some v => decide (|p.1.valor_total - v| ≤ tol)
    | none => false
  | none => false

/-- The accepted tier-3 rows (`fallback_matches`), empty when the fallback
is disabled. -/
def fallbackMatches (itens : List ItemXml) (demo : List DemoRow) (tol : ℚ)
    (fallback : Bool) : List MRow :=
  if fallback then
    ((mergeFallback ((tier2Restante itens demo).map (fun r => r.item)) demo).filter
        (fallbackKeep tol)).map
      (fun p => { item := p.1, demo := p.2, matched_on := "descricao+valor" })
  else []

/-- `apresentado_diff = valor_total - valor_apresentado`, `NaN`-propagating. -/
def rowDiff (r : MRow) : Option ℚ :=
  match r.demo with
  | some d => d.valor_apresentado.map (fun v => r.item.valor_total - v)
  | none => none

/-- `glosa_pct`: `valor_glosa / valor_apresentado` when the claimed amount
is strictly positive, else `0`. -/
def rowGlosaPct (r : MRow) : ℚ :=
  match r.demo with
  | some d =>
    match d.valor_apresentado with
    | some v => if 0 < v then d.valor_glosa / v else 0
    | none => 0
  | none => 0

/-- Attach the post-match computed columns to a matched row. -/
def calcRow (r : MRow) : MRowCalc :=
  { toMRow := r, apresentado_diff := rowDiff r, glosa_pct := rowGlosaPct r }

/-- The `drop_duplicates` key of the unmatched set:
`(arquivo, numeroGuiaPrestador, codigo_procedimento, valor_total)`. -/
def dedupChave (r : MRow) : String × String × String × ℚ :=
  (r.item.arquivo, r.item.numeroGuiaPrestador, r.item.codigo_procedimento,
   r.item.valor_total)

/-- Worker of `drop_duplicates` with `keep="first"`: keep a row only when
its key was not seen before. -/
def dropDupGo : List MRow → List (String × String × String × ℚ) → List MRow
  | [], _ => []
  | x :: xs, vistos =>
    if dedupChave x ∈ vistos then dropDupGo xs vistos
    else x :: dropDupGo xs (dedupChave x :: vistos)

/-- pandas `drop_duplicates(subset, keep="first")` on the dedup key. -/
def drop_duplicates (l : List MRow) : List MRow := dropDupGo l []

/-- The result pair of `conciliar_itens`. -/
structure ConcResult where
  conciliacao : List MRowCalc
  nao_casados : List MRow
deriving DecidableEq

/-- `conciliar_itens`: three ordered matching tiers, fallback-key removal
from the unmatched remainder, dedup of the unmatched set, and the computed
discrepancy columns on the matched set. -/
def conciliar_itens (itens : List ItemXml) (demo : List DemoRow) (tol : ℚ)
    (fallback : Bool) : ConcResult :=
  let m1 := tier1 itens demo
  let m2 := tier2 itens demo
  let fb := fallbackMatches itens demo tol fallback
  let conc := m1.filter (fun r => r.matched_on != "") ++
      m2.filter (fun r => r.matched_on != "") ++ fb
  let unmatch0 :=
    if fb.isEmpty then m2.filter (fun r => r.matched_on == "")
    else
      let chaves := fb.map (fun r => r.item.chave_prest)
      m2.filter (fun r =>
        r.matched_on == "" && !(chaves.contains r.item.chave_prest))
  { conciliacao := conc.map calcRow, nao_casados := drop_duplicates unmatch0 }

end Conc

section Exemplos

open TissParser AppParse Conc

/-- A SADT guide with no explicit grand total, component sub-total `5` and
a single other-expense item of `3`. -/
def guiaItensComp : TissParser.GuiaSADT :=
  { valorTotal := some
      { valorTotalGeral := none, valorProcedimentos := some 5, valorDiarias := none,
        valorTaxasAlugueis := none, valorMateriais := none, valorMedicamentos := none,
        valorGasesMedicinais := none },
    procedimentosExecutados := [],
    outrasDespesas := [{ servicosExecutados := some { valorTotal := some 3 } }] }

/-- A SADT guide with an explicit grand total of `10` and no items. -/
def guiaComTotal : TissParser.GuiaSADT :=
  { valorTotal := some
      { valorTotalGeral := some 10, valorProcedimentos := none, valorDiarias := none,
        valorTaxasAlugueis := none, valorMateriais := none, valorMedicamentos := none,
        valorGasesMedicinais := none },
    procedimentosExecutados := [], outrasDespesas := [] }

/-- A well-formed document with a lot number and no guides at all. -/
def docSemGuias : TissParser.TissDoc :=
  { loteGuiasNumeroLote := "7", recursoNumeroLote := "", tipoTransacao := "",
    temGuiaRecursoGlosa := false, guiasConsulta := [], guiasSADT := [],
    recursoGuias := 0, valorTotalRecursado := 0, numeroProtocolo := "" }

/-- A source whose document parses. -/
def fonteBoa : TissParser.XmlSource := { name := "b.xml", conteudo := .ok docSemGuias }

/-- A source whose bytes are not well-formed markup. -/
def fonteRuim : TissParser.XmlSource :=
  { name := "a.xml", conteudo := .error "not well-formed" }

/-- An executed procedure with a zero declared total, unit value `50` and
quantity `2`. -/
def procReconstruivel : AppParse.ProcedimentoExecutadoNode :=
  { codigoTabela := "22", codigoProcedimento := "10101012",
    descricaoProcedimento := "CONSULTA", quantidadeExecutada := 2,
    valorUnitario := 50, valorTotal := 0 }

/-- A SADT guide whose only procedure item needs total reconstruction. -/
def guiaReconstrucao : AppParse.GuiaSadtXml :=
  { numeroGuiaPrestador := "123", cabecalhoGuia := none, dadosAutorizacao := none,
    nomeBeneficiario := "", nomeProfissional := "", dataAtendimento := "",
    procedimentosExecutados := [procReconstruivel], outrasDespesas := [] }

/-- A SADT guide with a provider number but no payer number anywhere. -/
def guiaSemOperadora : AppParse.GuiaSadtXml :=
  { numeroGuiaPrestador := "8524664",
    cabecalhoGuia := some { numeroGuiaPrestador := "", numeroGuiaOperadora := "" },
    dadosAutorizacao := none,
    nomeBeneficiario := "", nomeProfissional := "", dataAtendimento := "",
    procedimentosExecutados := [], outrasDespesas := [] }

/-- An extracted item whose provider key is `1__A`. -/
def itemChaveA : Conc.ItemXml :=
  { arquivo := "x.xml", numeroGuiaPrestador := "1", numeroGuiaOperadora := "1",
    codigo_procedimento := "A", descricao_procedimento := "EXAME",
    valor_total := 10, chave_prest := "1__A", chave_oper := "1__A" }

/-- A statement row that joins on key `1__A` but has no claimed amount. -/
def demoSemValor : Conc.DemoRow :=
  { numeroGuiaPrestador := "1", codigo_procedimento := "A",
    descricao_procedimento := "EXAME", valor_apresentado := none,
    valor_glosa := 0, valor_pago := 0, chave_demo := "1__A" }

/-- An extracted item billed at `12` for the tier-3 boundary example. -/
def itemFallback : Conc.ItemXml :=
  { arquivo := "x.xml", numeroGuiaPrestador := "9", numeroGuiaOperadora := "9",
    codigo_procedimento := "B", descricao_procedimento := "RESSONANCIA",
    valor_total := 12, chave_prest := "9__B", chave_oper := "9__B" }

/-- A statement row claimed at `10`: exactly at tolerance `2` from the item. -/
def demoNaBorda : Conc.DemoRow :=
  { numeroGuiaPrestador := "9", codigo_procedimento := "B2",
    descricao_procedimento := "RESSONANCIA", valor_apresentado := some 10,
    valor_glosa := 0, valor_pago := 10, chave_demo := "9__B2" }

/-- A statement row claimed at `9`: beyond tolerance `2` from the item. -/
def demoForaBorda : Conc.DemoRow :=
  { numeroGuiaPrestador := "9", codigo_procedimento := "B3",
    descricao_procedimento := "RESSONANCIA", valor_apresentado := some 9,
    valor_glosa := 0, valor_pago := 9, chave_demo := "9__B3" }

/-- An extracted item for the zero-claimed-amount example. -/
def itemGlosaZero : Conc.ItemXml :=
  { arquivo := "x.xml", numeroGuiaPrestador := "5", numeroGuiaOperadora := "5",
    codigo_procedimento := "X", descricao_procedimento := "TAXA",
    valor_total := 50, chave_prest := "5__X", chave_oper := "5__X" }

/-- A statement row with claimed amount `0` and a positive denied amount. -/
def demoApresentadoZero : Conc.DemoRow :=
  { numeroGuiaPrestador := "5", codigo_procedimento := "X",
    descricao_procedimento := "TAXA", valor_apresentado := some 0,
    valor_glosa := 7, valor_pago := 0, chave_demo := "5__X" }

/-- An item the tier-3 fallback will match on `(77, TC)`. -/
def itemFbCasado : Conc.ItemXml :=
  { arquivo := "x.xml", numeroGuiaPrestador := "77", numeroGuiaOperadora := "77",
    codigo_procedimento := "A", descricao_procedimento := "TC",
    valor_total := 30, chave_prest := "77__A", chave_oper := "77__A" }

/-- An item sharing `chave_prest` with `itemFbCasado` that no tier matches. -/
def itemMesmaChave : Conc.ItemXml :=
  { arquivo := "x.xml", numeroGuiaPrestador := "77", numeroGuiaOperadora := "77",
    codigo_procedimento := "C", descricao_procedimento := "RX",
    valor_total := 99, chave_prest := "77__A", chave_oper := "77__A" }

/-- A statement row reachable only through the tier-3 description join. -/
def demoSoDescricao : Conc.DemoRow :=
  { numeroGuiaPrestador := "77", codigo_procedimento := "Z",
    descricao_procedimento := "TC", valor_apresentado := some 30,
    valor_glosa := 0, valor_pago := 30, chave_demo := "77__Z" }

/-- The tier-1 matched row of the zero-claimed-amount example. -/
def linhaGlosaZero : Conc.MRow :=
  { item := itemGlosaZero, demo := some demoApresentadoZero, matched_on := "prestador" }

/-- The unmatched tier-2 row of the shared-provider-key example. -/
def linhaMesmaChave : Conc.MRow :=
  { item := itemMesmaChave, demo := none, matched_on := "" }

end Exemplos

namespace TissParser

theorem mem_contaEstrategias_iff : ∀ (l : List String) (s : String) (n : ℕ),
    ((s, n) ∈ contaEstrategias l ↔ (s ∈ l ∧ n = l.count s)) := by
  intro l
  induction l using contaEstrategias.induct with
  | case1 => simp [contaEstrategias]
  | case2 a resto ih =>
    intro s n
    rw [contaEstrategias]
    constructor
    · intro h
      rcases List.mem_cons.mp h with h1 | h1
      · have hs : s = a ∧ n = 1 + resto.count a := by
          simpa [Prod.ext_iff] using h1
        obtain ⟨rfl, rfl⟩ := hs
        exact ⟨List.mem_cons_self _ _, by simp [List.count_cons_self, Nat.add_comm]⟩
      · have h2 := (ih s n).mp h1
        have hsa : s ≠ a := by
          have := List.of_mem_filter h2.1
          simpa using this
        have hsr : s ∈ resto := List.mem_of_mem_filter h2.1
        refine ⟨List.mem_cons_of_mem _ hsr, ?_⟩
        rw [h2.2, List.count_filter (by simpa using hsa), List.count_cons_of_ne hsa]
    · rintro ⟨hmem, rfl⟩
      by_cases hsa : s = a
      · subst hsa
        have hc : (s :: resto).count s = 1 + resto.count s := by
          simp [List.count_cons_self, Nat.add_comm]
        rw [hc]
        exact List.mem_cons_self _ _
      · have hsr : s ∈ resto := by
          rcases List.mem_cons.mp hmem with h | h
          · exact absurd h hsa
          · exact h
        refine List.mem_cons_of_mem _ ((ih s _).mpr ⟨?_, ?_⟩)
        · exact List.mem_filter.mpr ⟨hsr, by simpa using hsa⟩
        · rw [List.count_filter (by simpa using hsa), List.count_cons_of_ne hsa]

theorem fst_mem_of_mem_contaEstrategias {l : List String} {p : String × ℕ}
    (h : p ∈ contaEstrategias l) : p.1 ∈ l :=
  ((mem_contaEstrategias_iff l p.1 p.2).mp h).1

theorem nodup_keys_contaEstrategias : ∀ (l : List String),
    ((contaEstrategias l).map Prod.fst).Nodup := by
  intro l
  induction l using contaEstrategias.induct with
  | case1 => simp [contaEstrategias]
  | case2 a resto ih =>
    rw [contaEstrategias]
    refine List.Nodup.cons ?_ ih
    intro ha
    obtain ⟨p, hp, hpa⟩ := List.mem_map.mp ha
    have := fst_mem_of_mem_contaEstrategias hp
    rw [hpa] at this
    have := List.of_mem_filter this
    simp at this

theorem contaEstrategias_eq_nil_iff {l : List String} :
    contaEstrategias l = [] ↔ l = [] := by
  cases l with
  | nil => simp [contaEstrategias]
  | cons a resto => rw [contaEstrategias]; simp

theorem contaEstrategias_all_eq {l : List String} {s : String} (hne : l ≠ [])
    (h : ∀ x ∈ l, x = s) : contaEstrategias l = [(s, l.count s)] := by
  obtain ⟨a, resto, rfl⟩ := List.exists_cons_of_ne_nil hne
  have ha : a = s := h a (List.mem_cons_self _ _)
  subst ha
  rw [contaEstrategias]
  have hf : resto.filter (fun t => t != a) = [] := by
    rw [List.filter_eq_nil_iff]
    intro t ht
    have := h t (List.mem_cons_of_mem _ ht)
    simp [this]
  rw [hf]
  simp [contaEstrategias, List.count_cons_self, Nat.add_comm]

theorem contaEstrategias_length_ne_one {l : List String} {s1 s2 : String}
    (h1 : s1 ∈ l) (h2 : s2 ∈ l) (hne : s1 ≠ s2) :
    (contaEstrategias l).length ≠ 1 := by
  intro hlen
  have hk1 : s1 ∈ (contaEstrategias l).map Prod.fst := by
    exact List.mem_map.mpr ⟨(s1, l.count s1),
      (mem_contaEstrategias_iff l s1 _).mpr ⟨h1, rfl⟩, rfl⟩
  have hk2 : s2 ∈ (contaEstrategias l).map Prod.fst := by
    exact List.mem_map.mpr ⟨(s2, l.count s2),
      (mem_contaEstrategias_iff l s2 _).mpr ⟨h2, rfl⟩, rfl⟩
  have hlen2 : ((contaEstrategias l).map Prod.fst).length = 1 := by
    simpa using hlen
  obtain ⟨k, hk⟩ := List.length_eq_one.mp hlen2
  rw [hk] at hk1 hk2
  simp at hk1 hk2
  exact hne (hk1.trans hk2.symm)

end TissParser

namespace Conc

theorem mem_of_mem_dropDupGo :
    ∀ (l : List MRow) (vs : List (String × String × String × ℚ)) (x : MRow),
      x ∈ dropDupGo l vs → x ∈ l := by
  intro l
  induction l with
  | nil => simp [dropDupGo]
  | cons a as ih =>
    intro vs x hx
    rw [dropDupGo] at hx
    by_cases h : dedupChave a ∈ vs
    · rw [if_pos h] at hx
      exact List.mem_cons_of_mem _ (ih _ _ hx)
    · rw [if_neg h] at hx
      rcases List.mem_cons.mp hx with rfl | hx
      · exact List.mem_cons_self _ _
      · exact List.mem_cons_of_mem _ (ih _ _ hx)

theorem dedupChave_not_mem_vistos :
    ∀ (l : List MRow) (vs : List (String × String × String × ℚ)) (x : MRow),
      x ∈ dropDupGo l vs → dedupChave x ∉ vs := by
  intro l
  induction l with
  | nil => simp [dropDupGo]
  | cons a as ih =>
    intro vs x hx
    rw [dropDupGo] at hx
    by_cases h : dedupChave a ∈ vs
    · rw [if_pos h] at hx
      exact ih _ _ hx
    · rw [if_neg h] at hx
      rcases List.mem_cons.mp hx with rfl | hx
      · exact h
      · have := ih _ _ hx
        intro hmem
        exact this (List.mem_cons_of_mem _ hmem)

theorem pairwise_dropDupGo :
    ∀ (l : List MRow) (vs : List (String × String × String × ℚ)),
      (dropDupGo l vs).Pairwise (fun a b => dedupChave a ≠ dedupChave b) := by
  intro l
  induction l with
  | nil => intro vs; simp [dropDupGo]
  | cons a as ih =>
    intro vs
    rw [dropDupGo]
    by_cases h : dedupChave a ∈ vs
    · rw [if_pos h]; exact ih _
    · rw [if_neg h]
      refine List.Pairwise.cons ?_ (ih _)
      intro b hb hab
      have := dedupChave_not_mem_vistos _ _ _ hb
      exact this (by rw [← hab]; exact List.mem_cons_self _ _)

theorem exists_dropDupGo_rep :
    ∀ (l : List MRow) (vs : List (String × String × String × ℚ)) (x : MRow),
      x ∈ l → dedupChave x ∉ vs →
      ∃ y ∈ dropDupGo l vs, dedupChave y = dedupChave x := by
  intro l
  induction l with
  | nil => simp
  | cons a as ih =>
    intro vs x hx hvs
    rw [dropDupGo]
    by_cases h : dedupChave a ∈ vs
    · rw [if_pos h]
      rcases List.mem_cons.mp hx with rfl | hx
      · exact absurd h hvs
      · exact ih _ _ hx hvs
    · rw [if_neg h]
      by_cases hxa : dedupChave x = dedupChave a
      · exact ⟨a, List.mem_cons_self _ _, hxa.symm⟩
      · rcases List.mem_cons.mp hx with rfl | hx
        · exact absurd rfl hxa
        · obtain ⟨y, hy, hyx⟩ := ih (dedupChave a :: vs) x hx (by
            intro hmem
            rcases List.mem_cons.mp hmem with hh | hh
            · exact hxa hh
            · exact hvs hh)
          exact ⟨y, List.mem_cons_of_mem _ hy, hyx⟩

theorem matched_on_mem_tierJoin {tag : String} {chave : ItemXml → String}
    {itens : List ItemXml} {demo : List DemoRow} {r : MRow}
    (hr : r ∈ tierJoin tag chave itens demo) :
    r.matched_on = tag ∨ r.matched_on = "" := by
  obtain ⟨p, _, rfl⟩ := List.mem_map.mp hr
  unfold linhaTier
  by_cases h : valorPresente p.2
  · exact Or.inl (by simp [h])
  · exact Or.inr (by simp [h])

theorem matched_on_tierJoin_iff {tag : String} {chave : ItemXml → String}
    {itens : List ItemXml} {demo : List DemoRow} (htag : tag ≠ "") {r : MRow}
    (hr : r ∈ tierJoin tag chave itens demo) :
    r.matched_on = tag ↔ ∃ d, r.demo = some d ∧ d.valor_apresentado.isSome = true := by
  obtain ⟨p, _, rfl⟩ := List.mem_map.mp hr
  obtain ⟨it, d⟩ := p
  have htag2 : "" ≠ tag := Ne.symm htag
  cases d with
  | none => simp [linhaTier, valorPresente, htag2]
  | some dr =>
    by_cases h : dr.valor_apresentado.isSome
    · simp [linhaTier, valorPresente, h]
    · simp [linhaTier, valorPresente, h, htag2]

end Conc

namespace Conc

theorem tier1_cons (a : ItemXml) (as : List ItemXml) (demo : List DemoRow) :
    tier1 (a :: as) demo =
      (if (demo.filter (fun d => d.chave_demo == a.chave_prest)).isEmpty
       then [linhaTier "prestador" (a, none)]
       else (demo.filter (fun d => d.chave_demo == a.chave_prest)).map
         (fun d => linhaTier "prestador" (a, some d))) ++ tier1 as demo := by
  unfold tier1 tierJoin mergeEsquerda
  rw [List.flatMap_cons, List.map_append]
  congr 1
  by_cases hpe : (demo.filter (fun d => d.chave_demo == a.chave_prest)).isEmpty
  · simp only [hpe, if_true]
    simp
  · simp only [hpe, if_false]
    simp

theorem countP_tier1_matched (demo : List DemoRow) (it : ItemXml) :
    ∀ (itens : List ItemXml),
      (((tier1 itens demo).filter (fun r => r.matched_on != "")).countP
          (fun r => r.matched_on == "prestador" && r.item == it))
        = itens.count it *
            (demo.filter (fun d =>
              d.chave_demo == it.chave_prest && d.valor_apresentado.isSome)).length := by
  intro itens
  induction itens with
  | nil => simp [tier1, tierJoin, mergeEsquerda]
  | cons a as ih =>
    rw [tier1_cons, List.filter_append, List.countP_append, ih]
    by_cases hpe : (demo.filter (fun d => d.chave_demo == a.chave_prest)).isEmpty
    · rw [if_pos hpe]
      have hnil : ∀ d ∈ demo, ¬ (d.chave_demo == a.chave_prest) = true := by
        rw [← List.filter_eq_nil_iff]
        exact List.isEmpty_iff.mp hpe
      by_cases hai : a = it
      · subst hai
        have hQ : demo.filter (fun d =>
            d.chave_demo == a.chave_prest && d.valor_apresentado.isSome) = [] := by
          rw [List.filter_eq_nil_iff]
          intro d hd
          simp only [Bool.and_eq_true]
          rintro ⟨h1, _⟩
          exact hnil d hd h1
        rw [hQ]
        simp [linhaTier, valorPresente]
      · have hcnt : (a :: as).count it = as.count it := by
          rw [List.count_cons]
          simp [hai]
        rw [hcnt]
        simp [linhaTier, valorPresente]
    · rw [if_neg hpe]
      rw [List.filter_map, List.countP_map]
      have hfc : (demo.filter (fun d => d.chave_demo == a.chave_prest)).filter
            ((fun r => r.matched_on != "") ∘ (fun d => linhaTier "prestador" (a, some d)))
          = (demo.filter (fun d => d.chave_demo == a.chave_prest)).filter
              (fun d => d.valor_apresentado.isSome) := by
        apply List.filter_congr
        intro d _
        by_cases hd : d.valor_apresentado.isSome
        · simp [linhaTier, valorPresente, hd]
        · simp [linhaTier, valorPresente, hd]
      rw [hfc]
      have hcc : ((demo.filter (fun d => d.chave_demo == a.chave_prest)).filter
              (fun d => d.valor_apresentado.isSome)).countP
            ((fun r => r.matched_on == "prestador" && r.item == it) ∘
              (fun d => linhaTier "prestador" (a, some d)))
          = ((demo.filter (fun d => d.chave_demo == a.chave_prest)).filter
              (fun d => d.valor_apresentado.isSome)).countP
              (fun _ => a == it) := by
        apply List.countP_congr
        intro d hd
        have hds : d.valor_apresentado.isSome = true := (List.mem_filter.mp hd).2
        simp [linhaTier, valorPresente, hds]
      rw [hcc]
      by_cases hai : a = it
      · subst hai
        have hQ : (demo.filter (fun d => d.chave_demo == a.chave_prest)).filter
              (fun d => d.valor_apresentado.isSome)
            = demo.filter (fun d =>
                d.chave_demo == a.chave_prest && d.valor_apresentado.isSome) := by
          rw [List.filter_filter]
          apply List.filter_congr
          intro d _
          exact Bool.and_comm _ _
        rw [hQ]
        simp only [beq_self_eq_true]
        rw [List.count_cons_self, Nat.succ_mul]
        simp [Nat.add_comm]
      · have hcnt : (a :: as).count it = as.count it := by
          rw [List.count_cons]
          simp [hai]
        rw [hcnt]
        have : (a == it) = false := by simp [hai]
        simp [this]

end Conc

namespace Conc

theorem conciliacao_eq (itens : List ItemXml) (demo : List DemoRow) (tol : ℚ)
    (fallback : Bool) :
    (conciliar_itens itens demo tol fallback).conciliacao =
      ((tier1 itens demo).filter (fun r => r.matched_on != "") ++
        (tier2 itens demo).filter (fun r => r.matched_on != "") ++
        fallbackMatches itens demo tol fallback).map calcRow := rfl

theorem nao_casados_eq (itens : List ItemXml) (demo : List DemoRow) (tol : ℚ)
    (fallback : Bool) :
    (conciliar_itens itens demo tol fallback).nao_casados =
      drop_duplicates
        (if (fallbackMatches itens demo tol fallback).isEmpty
         then (tier2 itens demo).filter (fun r => r.matched_on == "")
         else (tier2 itens demo).filter (fun r =>
           r.matched_on == "" &&
             !(((fallbackMatches itens demo tol fallback).map
                 (fun m => m.item.chave_prest)).contains r.item.chave_prest))) := rfl

theorem matched_on_fallbackMatches {itens : List ItemXml} {demo : List DemoRow}
    {tol : ℚ} {fallback : Bool} {r : MRow}
    (hr : r ∈ fallbackMatches itens demo tol fallback) :
    r.matched_on = "descricao+valor" := by
  unfold fallbackMatches at hr
  by_cases hf : fallback
  · rw [if_pos hf] at hr
    obtain ⟨p, _, rfl⟩ := List.mem_map.mp hr
    rfl
  · rw [if_neg hf] at hr
    simp at hr

end Conc

section Claims

open TissParser AppParse Conc

/-- C1 (counterexample): the claim's strategy order is wrong on this guide.
Its explicit grand total is absent, its component sub-totals sum to `5 > 0`
and its expense items sum to `3`; under the claimed order (explicit total,
then component sum, then item sums) the guide would resolve to
`(5, component-sum)`, but `_sum_sadt_guia` resolves items before
components and returns `(3, "itens (proced+outras)")`. -/
theorem c1_component_priority_counterexample :
    valorTotalGeralDaGuia guiaItensComp = 0 ∧
    sum_componentes_valorTotal guiaItensComp = 5 ∧
    sum_itens_procedimentos guiaItensComp = 0 ∧
    sum_itens_outras_desp guiaItensComp = 3 ∧
    sum_sadt_guia guiaItensComp = (3, "itens (proced+outras)") ∧
    sum_sadt_guia guiaItensComp ≠
      (sum_componentes_valorTotal guiaItensComp, "componentes_valorTotal") := by
  have h1 : valorTotalGeralDaGuia guiaItensComp = 0 := rfl
  have h2 : sum_componentes_valorTotal guiaItensComp = 5 := by
    norm_num [sum_componentes_valorTotal, guiaItensComp, dec0]
  have h3 : sum_itens_procedimentos guiaItensComp = 0 := rfl
  have h4 : sum_itens_outras_desp guiaItensComp = 3 := by
    norm_num [sum_itens_outras_desp, guiaItensComp, dec0]
  have h5 : sum_sadt_guia guiaItensComp = (3, "itens (proced+outras)") := by
    simp only [sum_sadt_guia, h1, h3, h4]
    norm_num
  refine ⟨h1, h2, h3, h4, h5, ?_⟩
  rw [h5, h2]
  simp only [ne_eq, Prod.mk.injEq, not_and]
  intro h
  norm_num at h

/-- C1 (amended): for every SADT guide the total-resolution chain tries the
explicit grand total first, then the combined item sum (procedures plus
other expenses, as one strategy), and the component sum only last; each
later strategy runs only when every earlier one yielded a non-positive
value, and the first strictly positive result is returned together with its
strategy name (`(0, "zero")` when all fail). -/
theorem c1_strategy_chain_amended (guia : TissParser.GuiaSADT) :
    (0 < valorTotalGeralDaGuia guia →
      sum_sadt_guia guia = (valorTotalGeralDaGuia guia, "valorTotalGeral")) ∧
    (valorTotalGeralDaGuia guia ≤ 0 →
      0 < sum_itens_procedimentos guia + sum_itens_outras_desp guia →
      sum_sadt_guia guia =
        (sum_itens_procedimentos guia + sum_itens_outras_desp guia,
          "itens (proced+outras)")) ∧
    (valorTotalGeralDaGuia guia ≤ 0 →
      sum_itens_procedimentos guia + sum_itens_outras_desp guia ≤ 0 →
      0 < sum_componentes_valorTotal guia →
      sum_sadt_guia guia =
        (sum_componentes_valorTotal guia, "componentes_valorTotal")) ∧
    (valorTotalGeralDaGuia guia ≤ 0 →
      sum_itens_procedimentos guia + sum_itens_outras_desp guia ≤ 0 →
      sum_componentes_valorTotal guia ≤ 0 →
      sum_sadt_guia guia = (0, "zero")) := by
  simp only [sum_sadt_guia]
  refine ⟨fun h => ?_, fun h1 h2 => ?_, fun h1 h2 h3 => ?_, fun h1 h2 h3 => ?_⟩
  · rw [if_pos h]
  · rw [if_neg (not_lt.mpr h1), if_pos h2]
  · rw [if_neg (not_lt.mpr h1), if_neg (not_lt.mpr h2), if_pos h3]
  · rw [if_neg (not_lt.mpr h1), if_neg (not_lt.mpr h2), if_neg (not_lt.mpr h3)]

/-- C1 (witness): the amended chain applied to the counterexample guide. -/
theorem c1_strategy_chain_amended_witness :
    sum_sadt_guia guiaItensComp =
      (sum_itens_procedimentos guiaItensComp + sum_itens_outras_desp guiaItensComp,
        "itens (proced+outras)") :=
  (c1_strategy_chain_amended guiaItensComp).2.1
    (by norm_num [valorTotalGeralDaGuia, guiaItensComp, dec0])
    (by norm_num [sum_itens_procedimentos, sum_itens_outras_desp, guiaItensComp, dec0])

/-- C2: in the tier-1 provider-key join and the tier-2 payer-key join a row
is marked matched exactly when the joined statement's claimed amount is
present; a join partner without a claimed amount leaves the row unmatched. -/
theorem c2_match_requires_valor_apresentado (itens : List Conc.ItemXml)
    (demo : List Conc.DemoRow) :
    (∀ r ∈ tier1 itens demo,
      (r.matched_on = "prestador" ↔
        ∃ d, r.demo = some d ∧ d.valor_apresentado.isSome = true) ∧
      (r.matched_on = "prestador" ∨ r.matched_on = "")) ∧
    (∀ r ∈ tier2 itens demo,
      (r.matched_on = "operadora" ↔
        ∃ d, r.demo = some d ∧ d.valor_apresentado.isSome = true)) := by
  constructor
  · intro r hr
    exact ⟨matched_on_tierJoin_iff (by decide) hr, matched_on_mem_tierJoin hr⟩
  · intro r hr
    exact matched_on_tierJoin_iff (by decide) hr

/-- C2 (witness): a statement row that joins on the provider key but has no
claimed amount does not produce a match. -/
theorem c2_match_requires_valor_apresentado_witness :
    linhaTier "prestador" (itemChaveA, some demoSemValor) ∈
      tier1 [itemChaveA] [demoSemValor] ∧
    (linhaTier "prestador" (itemChaveA, some demoSemValor)).matched_on ≠ "prestador" := by
  have hmem : linhaTier "prestador" (itemChaveA, some demoSemValor) ∈
      tier1 [itemChaveA] [demoSemValor] := by
    simp [tier1, tierJoin, mergeEsquerda, itemChaveA, demoSemValor]
  refine ⟨hmem, ?_⟩
  intro hm
  obtain ⟨d, hd, hs⟩ :=
    (((c2_match_requires_valor_apresentado [itemChaveA] [demoSemValor]).1 _ hmem).1).mp hm
  have hdd : some demoSemValor = some d := hd
  rw [← Option.some.injEq demoSemValor d |>.mp hdd] at hs
  simp [demoSemValor] at hs

/-- C3: for every procedure and other-expense item of a SADT guide whose
declared total is zero while unit value and quantity are strictly positive,
the emitted item's total equals `unit value * quantity`. -/
theorem c3_reconstruction_invariant (guia : AppParse.GuiaSadtXml) :
    (∀ p ∈ guia.procedimentosExecutados,
      p.valorTotal = 0 → 0 < p.valorUnitario → 0 < p.quantidadeExecutada →
      itemDeProcedimento p ∈ itens_sadt guia ∧
      (itemDeProcedimento p).valor_total = p.valorUnitario * p.quantidadeExecutada) ∧
    (∀ dn ∈ guia.outrasDespesas, ∀ sv, dn.servicosExecutados = some sv →
      sv.valorTotal = 0 → 0 < sv.valorUnitario → 0 < sv.quantidadeExecutada →
      itemDeDespesa dn ∈ itens_sadt guia ∧
      (itemDeDespesa dn).valor_total = sv.valorUnitario * sv.quantidadeExecutada) := by
  constructor
  · intro p hp h0 hu hq
    refine ⟨List.mem_append_left _ (List.mem_map_of_mem _ hp), ?_⟩
    simp only [itemDeProcedimento]
    rw [if_pos ⟨h0, hu, hq⟩]
  · intro dn hdn sv hsv h0 hu hq
    refine ⟨List.mem_append_right _ (List.mem_map_of_mem _ hdn), ?_⟩
    simp only [itemDeDespesa, hsv]
    rw [if_pos ⟨h0, hu, hq⟩]

/-- C3 (witness): the reconstruction on a concrete item with unit value
`50` and quantity `2`. -/
theorem c3_reconstruction_invariant_witness :
    itemDeProcedimento procReconstruivel ∈ itens_sadt guiaReconstrucao ∧
    (itemDeProcedimento procReconstruivel).valor_total = 100 := by
  have h := (c3_reconstruction_invariant guiaReconstrucao).1 procReconstruivel
    (by simp [guiaReconstrucao]) rfl
    (by norm_num [procReconstruivel]) (by norm_num [procReconstruivel])
  exact ⟨h.1, h.2.trans (by norm_num [procReconstruivel])⟩

/-- C4: a tier-3 candidate that pairs an item with a statement row carrying
a claimed amount is kept exactly when the absolute difference between the
item total and the claimed amount is at most the tolerance; the boundary is
inclusive. -/
theorem c4_tolerance_boundary (tol : ℚ) (itens : List Conc.ItemXml)
    (demo : List Conc.DemoRow) (it : Conc.ItemXml) (d : Conc.DemoRow) (v : ℚ)
    (hv : d.valor_apresentado = some v) :
    ((it, some d) ∈ (mergeFallback itens demo).filter (fallbackKeep tol) ↔
      ((it, some d) ∈ mergeFallback itens demo ∧ |it.valor_total - v| ≤ tol)) ∧
    (|it.valor_total - v| = tol → fallbackKeep tol (it, some d) = true) ∧
    (tol < |it.valor_total - v| → fallbackKeep tol (it, some d) = false) := by
  have hk : fallbackKeep tol (it, some d) = decide (|it.valor_total - v| ≤ tol) := by
    simp only [fallbackKeep, hv]
  refine ⟨?_, ?_, ?_⟩
  · rw [List.mem_filter, hk]
    simp [decide_eq_true_eq]
  · intro hb
    rw [hk, hb]
    simp
  · intro hb
    rw [hk]
    simp only [decide_eq_false_iff_not]
    exact not_le.mpr hb

/-- C4 (witness): with tolerance `2`, a difference of exactly `2` is kept
and a difference of `3` is rejected. -/
theorem c4_tolerance_boundary_witness :
    fallbackKeep 2 (itemFallback, some demoNaBorda) = true ∧
    fallbackKeep 2 (itemFallback, some demoForaBorda) = false := by
  constructor
  · refine (c4_tolerance_boundary 2 [] [] itemFallback demoNaBorda 10 rfl).2.1 ?_
    have : itemFallback.valor_total - 10 = 2 := by
      norm_num [itemFallback]
    rw [this]
    norm_num [abs_of_nonneg]
  · refine (c4_tolerance_boundary 2 [] [] itemFallback demoForaBorda 9 rfl).2.2 ?_
    have : itemFallback.valor_total - 9 = 3 := by
      norm_num [itemFallback]
    rw [this]
    rw [abs_of_nonneg (by norm_num : (0:ℚ) ≤ 3)]
    norm_num

end Claims

section Claims2

open TissParser AppParse Conc

/-- C5: the document-level `estrategia_total` of `_sum_sadt` is the single
strategy name when every guide resolved with the same strategy; otherwise
it is a `"misto: "` label listing each strategy with the number of guides
that used it, sorted by descending count and then by strategy name. -/
theorem c5_estrategia_total_label (guias : List TissParser.GuiaSADT)
    (hne : guias ≠ []) :
    (∀ s : String, (∀ g ∈ guias, (sum_sadt_guia g).2 = s) →
      (sum_sadt guias).2.2 = s) ∧
    ((∃ g1 ∈ guias, ∃ g2 ∈ guias,
        (sum_sadt_guia g1).2 ≠ (sum_sadt_guia g2).2) →
      ∃ pares : List (String × ℕ),
        (sum_sadt guias).2.2 =
          "misto: " ++ String.intercalate ", "
            (pares.map (fun p => p.1 ++ "=" ++ toString p.2)) ∧
        List.Sorted stratKeyLE pares ∧
        (pares.map Prod.fst).Nodup ∧
        (∀ s n, ((s, n) ∈ pares ↔
          (s ∈ guias.map (fun g => (sum_sadt_guia g).2) ∧
            n = (guias.map (fun g => (sum_sadt_guia g).2)).count s)))) := by
  have hmm : (guias.map sum_sadt_guia).map Prod.snd =
      guias.map (fun g => (sum_sadt_guia g).2) := by
    rw [List.map_map]
    rfl
  have hbool : ¬(guias.isEmpty = true) := by
    simpa [List.isEmpty_iff] using hne
  constructor
  · intro s hall
    have hlist : ∀ x ∈ (guias.map sum_sadt_guia).map Prod.snd, x = s := by
      intro x hx
      rw [hmm] at hx
      obtain ⟨g, hg, rfl⟩ := List.mem_map.mp hx
      exact hall g hg
    have hne2 : (guias.map sum_sadt_guia).map Prod.snd ≠ [] := by
      simp [hne]
    have hconta := contaEstrategias_all_eq hne2 hlist
    simp only [sum_sadt]
    rw [if_neg hbool, hconta]
    simp
  · rintro ⟨g1, hg1, g2, hg2, hne12⟩
    have hs1 : (sum_sadt_guia g1).2 ∈ (guias.map sum_sadt_guia).map Prod.snd := by
      rw [hmm]
      exact List.mem_map.mpr ⟨g1, hg1, rfl⟩
    have hs2 : (sum_sadt_guia g2).2 ∈ (guias.map sum_sadt_guia).map Prod.snd := by
      rw [hmm]
      exact List.mem_map.mpr ⟨g2, hg2, rfl⟩
    have hlen := contaEstrategias_length_ne_one hs1 hs2 hne12
    refine ⟨List.insertionSort stratKeyLE
        (contaEstrategias ((guias.map sum_sadt_guia).map Prod.snd)), ?_, ?_, ?_, ?_⟩
    · simp only [sum_sadt]
      rw [if_neg hbool, if_neg hlen]
    · exact List.sorted_insertionSort stratKeyLE _
    · exact ((List.perm_insertionSort stratKeyLE _).map Prod.fst).nodup_iff.mpr
        (nodup_keys_contaEstrategias _)
    · intro s n
      rw [List.mem_insertionSort, mem_contaEstrategias_iff, hmm]

/-- C5 (witness): two guides resolved by the same strategy report that
strategy's plain name. -/
theorem c5_estrategia_total_label_witness :
    (sum_sadt [guiaComTotal, guiaComTotal]).2.2 = "valorTotalGeral" := by
  have hstrat : (sum_sadt_guia guiaComTotal).2 = "valorTotalGeral" := by
    simp only [sum_sadt_guia]
    rw [if_pos (by norm_num [valorTotalGeralDaGuia, guiaComTotal, dec0])]
  refine (c5_estrategia_total_label [guiaComTotal, guiaComTotal] (by simp)).1
    "valorTotalGeral" ?_
  intro g hg
  rcases List.mem_cons.mp hg with rfl | hg2
  · exact hstrat
  · rcases List.mem_cons.mp hg2 with rfl | hg3
    · exact hstrat
    · simp at hg3

/-- C6: the unmatched set of `conciliar_itens` never contains two rows with
the same `(arquivo, numeroGuiaPrestador, codigo_procedimento, valor_total)`
dedup key, while the matched set keeps one tier-1 row per statement record
that joins on the provider key with a claimed amount present (one-to-many
matches are all retained; no dedup on the matched side). -/
theorem c6_unmatched_dedup_and_matched_multiplicity (itens : List Conc.ItemXml)
    (demo : List Conc.DemoRow) (tol : ℚ) (fb : Bool) (it : Conc.ItemXml) :
    ((conciliar_itens itens demo tol fb).nao_casados).Pairwise
      (fun a b => dedupChave a ≠ dedupChave b) ∧
    (((conciliar_itens itens demo tol fb).conciliacao.filter
        (fun r => r.matched_on == "prestador" && r.item == it)).length
      = itens.count it *
          (demo.filter (fun d =>
            d.chave_demo == it.chave_prest && d.valor_apresentado.isSome)).length) := by
  constructor
  · rw [nao_casados_eq]
    exact pairwise_dropDupGo _ _
  · rw [conciliacao_eq, ← List.countP_eq_length_filter, List.countP_map]
    have hcomp : ((fun r : MRowCalc => r.matched_on == "prestador" && r.item == it)
        ∘ calcRow) = fun r : MRow => r.matched_on == "prestador" && r.item == it := rfl
    rw [hcomp, List.countP_append, List.countP_append]
    have ht2 : (((tier2 itens demo).filter (fun r => r.matched_on != "")).countP
        (fun r => r.matched_on == "prestador" && r.item == it)) = 0 := by
      rw [List.countP_eq_zero]
      intro r hr
      have hval := matched_on_mem_tierJoin (List.mem_of_mem_filter hr)
      have hne2 : r.matched_on ≠ "" := by
        have := (List.mem_filter.mp hr).2
        simpa using this
      have hop : r.matched_on = "operadora" := hval.resolve_right hne2
      simp [hop]
    have hfb : ((fallbackMatches itens demo tol fb).countP
        (fun r => r.matched_on == "prestador" && r.item == it)) = 0 := by
      rw [List.countP_eq_zero]
      intro r hr
      have := matched_on_fallbackMatches hr
      simp [this]
    rw [ht2, hfb, countP_tier1_matched]
    simp

/-- C7: on every matched row, whichever tier produced it, the computed
`glosa_pct` equals the denied amount divided by the claimed amount when the
claimed amount is strictly positive, and is exactly `0` when the claimed
amount is zero or missing. -/
theorem c7_glosa_pct_guard (itens : List Conc.ItemXml) (demo : List Conc.DemoRow)
    (tol : ℚ) (fb : Bool) :
    ∀ r ∈ (conciliar_itens itens demo tol fb).conciliacao,
      (∀ d v, r.demo = some d → d.valor_apresentado = some v →
        ((0 < v → r.glosa_pct = d.valor_glosa / v) ∧ (v = 0 → r.glosa_pct = 0))) ∧
      (∀ d, r.demo = some d → d.valor_apresentado = none → r.glosa_pct = 0) := by
  intro r hr
  rw [conciliacao_eq] at hr
  obtain ⟨r0, _, rfl⟩ := List.mem_map.mp hr
  constructor
  · intro d v hd hv
    have hdemo : r0.demo = some d := hd
    constructor
    · intro hvpos
      show rowGlosaPct r0 = d.valor_glosa / v
      simp only [rowGlosaPct, hdemo, hv]
      rw [if_pos hvpos]
    · intro hv0
      show rowGlosaPct r0 = 0
      simp only [rowGlosaPct, hdemo, hv, hv0]
      simp
  · intro d hd hnone
    have hdemo : r0.demo = some d := hd
    show rowGlosaPct r0 = 0
    simp only [rowGlosaPct, hdemo, hnone]

/-- C7 (witness): a tier-1 match whose claimed amount is `0` and denied
amount is `7` gets `glosa_pct = 0` rather than a division error. -/
theorem c7_glosa_pct_guard_witness :
    (calcRow linhaGlosaZero).glosa_pct = 0 := by
  have ht1 : tier1 [itemGlosaZero] [demoApresentadoZero] = [linhaGlosaZero] := by
    decide
  have ht2 : tier2 [itemGlosaZero] [demoApresentadoZero] = [] := by
    decide
  have hmem : calcRow linhaGlosaZero ∈
      (conciliar_itens [itemGlosaZero] [demoApresentadoZero] 2 false).conciliacao := by
    rw [conciliacao_eq, ht1, ht2]
    simp [fallbackMatches, linhaGlosaZero]
  exact ((c7_glosa_pct_guard [itemGlosaZero] [demoApresentadoZero] 2 false _ hmem).1
    demoApresentadoZero 0 rfl rfl).2 rfl

/-- C8: for both guide kinds, when the payer-guide identifier is absent
from all of its structural locations the extractor backfills it with the
provider-guide identifier, the authorization sub-node has priority for
SADT guides, every emitted item carries the resolved payer identifier, and
the payer identifier is non-empty whenever the provider identifier is. -/
theorem c8_operadora_fallback :
    (∀ guia : AppParse.GuiaSadtXml,
      (∀ aut, guia.dadosAutorizacao = some aut → aut.numeroGuiaOperadora ≠ "" →
        numeroGuiaOperSadt guia = aut.numeroGuiaOperadora) ∧
      ((match guia.dadosAutorizacao with
        | some aut => aut.numeroGuiaOperadora
        | none => "") = "" →
       (match guia.cabecalhoGuia with
        | some cab => cab.numeroGuiaOperadora
        | none => "") = "" →
       numeroGuiaOperSadt guia = numeroGuiaPrestSadt guia) ∧
      (numeroGuiaPrestSadt guia ≠ "" → numeroGuiaOperSadt guia ≠ "") ∧
      (∀ arquivo lote itc, itc ∈ itensDaGuiaSadt arquivo lote guia →
        itc.numeroGuiaOperadora = numeroGuiaOperSadt guia)) ∧
    (∀ guia : AppParse.GuiaConsultaXml,
      (guia.numeroGuiaOperadora = "" →
        numeroGuiaOperConsulta guia = guia.numeroGuiaPrestador) ∧
      (guia.numeroGuiaPrestador ≠ "" → numeroGuiaOperConsulta guia ≠ "") ∧
      (∀ arquivo lote itc, itc ∈ itensDaGuiaConsulta arquivo lote guia →
        itc.numeroGuiaOperadora = numeroGuiaOperConsulta guia)) := by
  constructor
  · intro guia
    refine ⟨?_, ?_, ?_, ?_⟩
    · intro aut ha hne2
      simp only [numeroGuiaOperSadt, ha, if_neg hne2]
    · intro h1 h2
      simp only [numeroGuiaOperSadt, h1, h2]
      simp
    · intro hp
      simp only [numeroGuiaOperSadt]
      split_ifs <;> simp_all
    · intro arquivo lote itc hitc
      obtain ⟨it0, _, rfl⟩ := List.mem_map.mp hitc
      rfl
  · intro guia
    refine ⟨?_, ?_, ?_⟩
    · intro h0
      simp [numeroGuiaOperConsulta, h0]
    · intro hp
      simp only [numeroGuiaOperConsulta]
      split_ifs <;> simp_all
    · intro arquivo lote itc hitc
      obtain ⟨it0, _, rfl⟩ := List.mem_map.mp hitc
      rfl

/-- C8 (witness): a SADT guide carrying only a provider number gets that
number as its payer number, which is therefore non-empty. -/
theorem c8_operadora_fallback_witness :
    numeroGuiaOperSadt guiaSemOperadora = "8524664" ∧
    numeroGuiaOperSadt guiaSemOperadora ≠ "" := by
  have h := c8_operadora_fallback.1 guiaSemOperadora
  have hp : numeroGuiaPrestSadt guiaSemOperadora = "8524664" := by
    simp only [numeroGuiaPrestSadt, guiaSemOperadora]
    rw [if_pos (by decide)]
  refine ⟨(h.2.1 rfl rfl).trans hp, h.2.2.1 ?_⟩
  rw [hp]
  decide

/-- C9: `parse_many_xmls` returns one record per source in input order;
the record at position `i` depends only on source `i` (so one failure
never affects sibling sources), and a failing source yields a record with
the error message, zero guides, zero total and strategy `"erro"`. -/
theorem c9_parse_many_isolation (sources : List TissParser.XmlSource) (i : ℕ)
    (h1 : i < sources.length) (h2 : i < (parse_many_xmls sources).length) :
    (parse_many_xmls sources).length = sources.length ∧
    (parse_many_xmls sources).get ⟨i, h2⟩ =
      (match parse_tiss_xml (sources.get ⟨i, h1⟩) with
       | .ok r => r
       | .error e =>
          { arquivo := (sources.get ⟨i, h1⟩).name, numero_lote := "",
            tipo := "DESCONHECIDO", qtde_guias := 0, valor_total := 0,
            estrategia_total := "erro", protocolo := none, erro := some e,
            parserVersion := parser_version }) ∧
    (∀ e, parse_tiss_xml (sources.get ⟨i, h1⟩) = .error e →
      ((parse_many_xmls sources).get ⟨i, h2⟩).qtde_guias = 0 ∧
      ((parse_many_xmls sources).get ⟨i, h2⟩).valor_total = 0 ∧
      ((parse_many_xmls sources).get ⟨i, h2⟩).estrategia_total = "erro" ∧
      ((parse_many_xmls sources).get ⟨i, h2⟩).erro = some e) := by
  refine ⟨by simp [parse_many_xmls], ?_, ?_⟩
  · simp only [parse_many_xmls, List.get_eq_getElem, List.getElem_map]
  · intro e he
    rw [List.get_eq_getElem] at he
    simp only [parse_many_xmls, List.get_eq_getElem, List.getElem_map, he]
    exact ⟨trivial, trivial, trivial, trivial⟩

/-- C9 (witness): a malformed first source yields the zero error record
while the second source still parses. -/
theorem c9_parse_many_isolation_witness :
    (parse_many_xmls [fonteRuim, fonteBoa]).length = 2 ∧
    (parse_many_xmls [fonteRuim, fonteBoa]).get ⟨0, by decide⟩ =
      { arquivo := "a.xml", numero_lote := "", tipo := "DESCONHECIDO",
        qtde_guias := 0, valor_total := 0, estrategia_total := "erro",
        protocolo := none, erro := some "not well-formed",
        parserVersion := parser_version } := by
  have h := c9_parse_many_isolation [fonteRuim, fonteBoa] 0 (by decide) (by decide)
  exact ⟨h.1, h.2.1⟩

/-- C10: with the fallback enabled, the final unmatched set is tier 2's
remainder minus every row whose provider key occurs among the
fallback-matched rows' provider keys (then deduplicated); in particular a
remainder row is dropped as soon as it merely shares a provider key with
some fallback-matched item. -/
theorem c10_fallback_chave_prest_removal (itens : List Conc.ItemXml)
    (demo : List Conc.DemoRow) (tol : ℚ) (r : Conc.MRow) :
    (r ∈ (conciliar_itens itens demo tol true).nao_casados →
      r ∈ tier2Restante itens demo ∧
      r.item.chave_prest ∉
        (fallbackMatches itens demo tol true).map (fun m => m.item.chave_prest)) ∧
    (r ∈ tier2Restante itens demo →
      r.item.chave_prest ∈
        (fallbackMatches itens demo tol true).map (fun m => m.item.chave_prest) →
      r ∉ (conciliar_itens itens demo tol true).nao_casados) ∧
    (r ∈ tier2Restante itens demo →
      r.item.chave_prest ∉
        (fallbackMatches itens demo tol true).map (fun m => m.item.chave_prest) →
      ∃ r2 ∈ (conciliar_itens itens demo tol true).nao_casados,
        dedupChave r2 = dedupChave r) := by
  have hsub : ∀ x : MRow, x ∈ (conciliar_itens itens demo tol true).nao_casados →
      x ∈ tier2Restante itens demo ∧
      x.item.chave_prest ∉
        (fallbackMatches itens demo tol true).map (fun m => m.item.chave_prest) := by
    intro x hx
    rw [nao_casados_eq] at hx
    have hx0 := mem_of_mem_dropDupGo _ _ _ hx
    by_cases hfe : (fallbackMatches itens demo tol true).isEmpty
    · rw [if_pos hfe] at hx0
      refine ⟨hx0, ?_⟩
      rw [List.isEmpty_iff.mp hfe]
      simp
    · rw [if_neg hfe] at hx0
      have hmem := List.mem_filter.mp hx0
      have hcond := hmem.2
      rw [Bool.and_eq_true] at hcond
      refine ⟨List.mem_filter.mpr ⟨hmem.1, hcond.1⟩, ?_⟩
      have hb := hcond.2
      rw [Bool.not_eq_true'] at hb
      intro hmemk
      have hc : (List.map (fun m => m.item.chave_prest)
          (fallbackMatches itens demo tol true)).contains x.item.chave_prest = true :=
        List.elem_iff.mpr hmemk
      rw [hb] at hc
      exact Bool.false_ne_true hc
  refine ⟨hsub r, ?_, ?_⟩
  · intro _ h2 hin
    exact (hsub r hin).2 h2
  · intro h1 h2
    rw [nao_casados_eq]
    by_cases hfe : (fallbackMatches itens demo tol true).isEmpty
    · rw [if_pos hfe]
      exact exists_dropDupGo_rep _ _ _ h1 (by simp)
    · rw [if_neg hfe]
      refine exists_dropDupGo_rep _ _ _ ?_ (by simp)
      have hmem := List.mem_filter.mp h1
      refine List.mem_filter.mpr ⟨hmem.1, ?_⟩
      rw [Bool.and_eq_true]
      refine ⟨hmem.2, ?_⟩
      rw [Bool.not_eq_true']
      cases hcc : (List.map (fun m => m.item.chave_prest)
          (fallbackMatches itens demo tol true)).contains r.item.chave_prest
      · rfl
      · exact absurd (List.elem_iff.mp hcc) h2

/-- C10 (witness): an unmatched item that only shares its provider key with
a fallback-matched item is removed from the unmatched set. -/
theorem c10_fallback_chave_prest_removal_witness :
    linhaMesmaChave ∉
      (conciliar_itens [itemFbCasado, itemMesmaChave] [demoSoDescricao] 2
        true).nao_casados := by
  have hmemT2 : linhaMesmaChave ∈
      tier2Restante [itemFbCasado, itemMesmaChave] [demoSoDescricao] := by
    decide
  have hmerge : mergeFallback
      ((tier2Restante [itemFbCasado, itemMesmaChave] [demoSoDescricao]).map
        (fun r => r.item)) [demoSoDescricao] =
      [(itemFbCasado, some demoSoDescricao), (itemMesmaChave, none)] := by
    decide
  have hkeep1 : fallbackKeep 2 (itemFbCasado, some demoSoDescricao) = true := by
    simp only [fallbackKeep, demoSoDescricao, decide_eq_true_eq]
    norm_num [itemFbCasado]
  have hkeep2 : fallbackKeep 2 (itemMesmaChave, (none : Option Conc.DemoRow)) = false :=
    rfl
  have hfb : fallbackMatches [itemFbCasado, itemMesmaChave] [demoSoDescricao] 2 true =
      [{ item := itemFbCasado, demo := some demoSoDescricao,
         matched_on := "descricao+valor" }] := by
    rw [fallbackMatches]
    simp only [if_true, hmerge]
    rw [List.filter_cons, List.filter_cons, hkeep1, hkeep2]
    simp
  have hkey : linhaMesmaChave.item.chave_prest ∈
      (fallbackMatches [itemFbCasado, itemMesmaChave] [demoSoDescricao] 2 true).map
        (fun m => m.item.chave_prest) := by
    rw [hfb]
    simp [linhaMesmaChave, itemMesmaChave, itemFbCasado]
  exact (c10_fallback_chave_prest_removal [itemFbCasado, itemMesmaChave]
    [demoSoDescricao] 2 _).2.1 hmemT2 hkey

end Claims2
